import Mathlib

set_option linter.unusedVariables false

namespace Tools

/- ## Go string primitives used by tools/http.go and GetTextTwoMiddle

Go strings are byte sequences; we model them as Lean `String` / `List Char`
(the inputs relevant to the claims are ASCII, where the two coincide). -/

/-- `unicode.IsSpace` restricted to the ASCII space characters Go's
`strings.TrimSpace` strips on the inputs at issue. -/
def isGoSpace (c : Char) : Bool :=
  c = ' ' || c = '\t' || c = '\n' || c = Char.ofNat 11 || c = Char.ofNat 12 || c = '\r'

/-- `strings.TrimSpace` on a character list. -/
def trimChars (l : List Char) : List Char :=
  ((l.dropWhile isGoSpace).reverse.dropWhile isGoSpace).reverse

/-- `strings.TrimSpace`. -/
def goTrim (s : String) : String :=
  String.mk (trimChars s.data)

/-- Split a character list on a separator character (the semantics of
`strings.Split` / line scanning used by the header loop). -/
def splitOnChar (sep : Char) : List Char → List (List Char)
  | [] => [[]]
  | c :: rest =>
    match splitOnChar sep rest with
    | [] => if c = sep then [[], []] else [[c]]
    | h :: t => if c = sep then [] :: h :: t else (c :: h) :: t

/-- `strings.SplitN(s, sep, 2)`: split at the first occurrence of `sep`;
`none` when `sep` does not occur (Go's `len(parts) == 1` case). -/
def splitFirstChar (sep : Char) : List Char → Option (List Char × List Char)
  | [] => none
  | c :: rest =>
    if c = sep then some ([], rest)
    else (splitFirstChar sep rest).map (fun p => (c :: p.1, p.2))

/-- Does `s` start with `pat`? (helper for `strings.Index`). -/
def listStartsWith : List Char → List Char → Bool
  | _, [] => true
  | [], _ :: _ => false
  | c :: s, p :: ps => if c = p then listStartsWith s ps else false

/-- `strings.Index` returning `some i` for the first match, `none` for Go's `-1`. -/
def goIndex : List Char → List Char → Option Nat
  | [], pat => if pat = [] then some 0 else none
  | c :: rest, pat =>
    if listStartsWith (c :: rest) pat then some 0
    else (goIndex rest pat).map (· + 1)

/- ## net/textproto canonical header keys and http.Header Set/Get -/

/-- `validHeaderFieldByte` from net/textproto (RFC 7230 token characters). -/
def validHeaderFieldChar (c : Char) : Bool :=
  c.isAlphanum || c = '!' || c = '#' || c = '$' || c = '%' || c = '&' ||
  c = Char.ofNat 39 || c = '*' || c = '+' || c = '-' || c = '.' ||
  c = Char.ofNat 94 || c = '_' || c = Char.ofNat 96 || c = '|' || c = Char.ofNat 126

/-- The case-folding loop of `CanonicalMIMEHeaderKey`: upper-case a letter at
the start and after each hyphen, lower-case the rest. -/
def canonicalKeyChars : Bool → List Char → List Char
  | _, [] => []
  | upper, c :: rest =>
    (if upper then c.toUpper else c.toLower) :: canonicalKeyChars (c = '-') rest

/-- `textproto.CanonicalMIMEHeaderKey`: returned unchanged when any character
is not a valid header-field character, canonicalized otherwise. -/
def canonicalMIMEHeaderKey (s : String) : String :=
  if s.data.all validHeaderFieldChar then String.mk (canonicalKeyChars true s.data)
  else s

/-- `http.Header`: the Go map from canonical keys to value lists, modelled as
an association list (Go map iteration order is irrelevant to the claims). -/
abbrev Headers := List (String × List String)

/-- Store `(ck, [v])`, replacing any existing entry for `ck`
(the map write of `textproto.MIMEHeader.Set`). -/
def setEntry : Headers → String → String → Headers
  | [], ck, v => [(ck, [v])]
  | kv :: rest, ck, v =>
    if kv.1 = ck then (ck, [v]) :: rest else kv :: setEntry rest ck v

/-- The map read underlying `http.Header.Get`. -/
def getEntry : Headers → String → Option (List String)
  | [], _ => none
  | kv :: rest, ck => if kv.1 = ck then some kv.2 else getEntry rest ck

/-- `http.Header.Set(k, v)`: canonicalize the key and replace its values with `[v]`. -/
def headerSet (h : Headers) (k v : String) : Headers :=
  setEntry h (canonicalMIMEHeaderKey k) v

/-- `http.Header.Get(k)`: canonicalize the key; first stored value, `""` when absent. -/
def headerGet (h : Headers) (k : String) : String :=
  match getEntry h (canonicalMIMEHeaderKey k) with
  | some vs => vs.headD ""
  | none => ""

/- ## Request header construction (HttpUrl lines 674-690)

The code first does `req.Header.Set("Cookie", cookieGo)` when `cookieGo` is
non-empty, then scans `headersTextGo` line by line: each line with a colon is
split at the first colon and attached with `req.Header.Set(TrimSpace(key),
TrimSpace(value))`; lines without a colon are skipped. -/

/-- Parse one header line: `strings.SplitN(line, ":", 2)` plus the `TrimSpace`
calls and the key canonicalization performed by `Header.Set`. -/
def lineKV (line : List Char) : Option (String × String) :=
  match splitFirstChar ':' line with
  | some (k, v) =>
      some (canonicalMIMEHeaderKey (String.mk (trimChars k)), String.mk (trimChars v))
  | none => none

/-- One iteration of the header-scanning loop. -/
def applyHeaderLine (h : Headers) (line : List Char) : Headers :=
  match lineKV line with
  | some (ck, v) => setEntry h ck v
  | none => h

/-- The outgoing request's headers as built by HttpUrl lines 674-690. -/
def buildReqHeaders (cookieGo : String) (headersTextGo : String) : Headers :=
  let h0 : Headers := []
  let h1 := if cookieGo = "" then h0 else headerSet h0 "Cookie" cookieGo
  (splitOnChar '\n' headersTextGo.data).foldl applyHeaderLine h1

/-- The value of the last scanned line whose canonical key is `ck`, if any
(specification-side notion used to characterize the `Set`-based loop). -/
def lastSetValue (ck : String) : List (List Char) → Option String
  | [] => none
  | l :: rest =>
    match lastSetValue ck rest with
    | some v => some v
    | none =>
      match lineKV l with
      | some (k, v) => if k = ck then some v else none
      | none => none

/-- Modelled from the spec (4.2 wording), used only to state the claimed cookie
merge: split a cookie string on `;` into trimmed `name=value` pairs, dropping
items without `=` or with an empty name. -/
def specCookiePairs (s : String) : List (String × String) :=
  (splitOnChar ';' s.data).filterMap (fun item =>
    match splitFirstChar '=' (trimChars item) with
    | some (n, v) =>
        if trimChars n = [] then none
        else some (String.mk (trimChars n), String.mk (trimChars v))
    | none => none)

/- ## The third-revision HTTP executor (tools/http.go lines 537-890)

External collaborators — `url.Parse`, `http2.ConfigureTransport`,
`http.NewRequest`, `client.Do`, and the four decompression libraries — are
modelled as an oracle (`Collab`): the executor is faithful in how it branches
on each collaborator outcome and in what it returns on every path. -/

/-- Result of `gzip.NewReader` / `zlib.NewReader` / `zstd.NewReader` followed
by `io.ReadAll`: reader construction can fail, and reading can fail. -/
inductive DecompResult where
  | newReaderErr : DecompResult
  | readFail : DecompResult
  | ok : List Nat → DecompResult
deriving DecidableEq, Repr

/-- `brotli.NewReader` returns no error; only the subsequent read can fail. -/
inductive BrotliResult where
  | readFail : BrotliResult
  | ok : List Nat → BrotliResult
deriving DecidableEq, Repr

/-- The network response delivered by `client.Do`: status data, header map,
the byte stream the server will deliver (`bodyAvail`), and whether a non-EOF
error occurs while reading it (`readErr`, with `readErrBytes` the bytes
obtained before the failure). -/
structure NetResponse where
  statusCode : Int
  proto : String
  status : String
  headers : Headers
  bodyAvail : List Nat
  readErr : Bool
  readErrBytes : List Nat
deriving DecidableEq, Repr

/-- Collaborator oracle for one call. -/
structure Collab where
  parseProxyOk : String → Bool
  http2ConfigOk : Bool
  newRequestOk : String → String → Bool
  netOutcome : Except String NetResponse
  gzipDec : List Nat → DecompResult
  deflateDec : List Nat → DecompResult
  brotliDec : List Nat → BrotliResult
  zstdDec : List Nat → DecompResult

/-- HttpResponse (lines 572-580). -/
structure HttpResponse where
  statusCode : Int
  proto : String
  status : String
  headers : Headers
  statusLine : String
  rawHeaders : String
  body : List Nat
deriving DecidableEq, Repr

/-- formatHeaders (lines 847-855). -/
def formatHeaders (headers : Headers) : String :=
  headers.foldl
    (fun acc kv => kv.2.foldl (fun acc2 v => acc2 ++ kv.1 ++ ": " ++ v ++ "\r\n") acc)
    ""

/-- newEmptyResponse (lines 583-593). -/
def newEmptyResponse : HttpResponse :=
  { statusCode := 0, proto := "", status := "", headers := [],
    statusLine := "", rawHeaders := "", body := [] }

/-- The repeated `&HttpResponse{...}` literal built from a received network
response and a chosen body (lines 711-719 and the later error/success sites). -/
def respWithBody (r : NetResponse) (b : List Nat) : HttpResponse :=
  { statusCode := r.statusCode, proto := r.proto, status := r.status,
    headers := r.headers,
    statusLine := r.proto ++ " " ++ r.status ++ "\r\n",
    rawHeaders := formatHeaders r.headers,
    body := b }

/-- The `MaxResponseSize` defaulting (lines 638-640): `< 1` means 200 MiB. -/
def effMax (m : Int) : Nat :=
  if m < 1 then 200 * 1024 * 1024 else m.toNat

/-- The `Content-Encoding` switch (lines 734-829): gzip/deflate/zstd attach the
still-compressed body on reader-construction failure and an empty body on read
failure; brotli attaches an empty body on its (read-only) failure; an
unrecognized or absent encoding passes the body through. -/
def decompressStage (c : Collab) (r : NetResponse) (body : List Nat) :
    Option String × Option HttpResponse :=
  match headerGet r.headers "Content-Encoding" with
  | "gzip" =>
    match c.gzipDec body with
    | DecompResult.newReaderErr => (some "error: gzip reader", some (respWithBody r body))
    | DecompResult.readFail => (some "error: gzip read", some (respWithBody r []))
    | DecompResult.ok out => (none, some (respWithBody r out))
  | "deflate" =>
    match c.deflateDec body with
    | DecompResult.newReaderErr => (some "error: deflate reader", some (respWithBody r body))
    | DecompResult.readFail => (some "error: deflate read", some (respWithBody r []))
    | DecompResult.ok out => (none, some (respWithBody r out))
  | "br" =>
    match c.brotliDec body with
    | BrotliResult.readFail => (some "error: brotli read", some (respWithBody r []))
    | BrotliResult.ok out => (none, some (respWithBody r out))
  | "zstd" =>
    match c.zstdDec body with
    | DecompResult.newReaderErr => (some "error: zstd reader", some (respWithBody r body))
    | DecompResult.readFail => (some "error: zstd read", some (respWithBody r []))
    | DecompResult.ok out => (none, some (respWithBody r out))
  | _ => (none, some (respWithBody r body))

/-- HttpUrl, third revision (lines 614-844). The ten parameters are those of
the Go function (`postData = none` models a nil slice; it is defaulted to empty
at line 642-644 and does not influence the modelled outcome). The second
component of the result models the returned `*HttpResponse` pointer: each Go
return site returns a non-nil pointer, hence each arm here returns `some _`.
The outgoing request carries the headers `buildReqHeaders cookieGo
headersTextGo` (lines 674-690); the transport-construction step is
`newTransportStep` below (lines 646-656). The body is read through
`io.LimitedReader{N: MaxResponseSize+1}`: `limitReader.N <= 0` after `ReadAll`
is equivalent to `bodyAvail` holding at least `MaxResponseSize+1` bytes, and
the stored body is then truncated with `body[:MaxResponseSize]`. -/
def HttpUrl (urlStr method : String) (postData : Option (List Nat))
    (cookieGo headersTextGo : String) (allowRedirects : Bool) (proxyGo : String)
    (timeout : Int) (MaxResponseSize : Int) (ignoreCertErrors : Bool)
    (c : Collab) : Option String × Option HttpResponse :=
  let response := newEmptyResponse
  let maxResponseSize := effMax MaxResponseSize
  if proxyGo ≠ "" ∧ c.parseProxyOk proxyGo = false then
    (some "error: parsing proxy URL", some response)
  else if c.http2ConfigOk = false then
    (some "error: http2 configure", some response)
  else if c.newRequestOk method urlStr = false then
    (some "error: new request", some response)
  else
    match c.netOutcome with
    | Except.error e => (some ("error: sending request: " ++ e), some response)
    | Except.ok r =>
      if r.readErr then
        (some "error: reading body", some (respWithBody r r.readErrBytes))
      else
        let body := r.bodyAvail.take (maxResponseSize + 1)
        if maxResponseSize + 1 ≤ r.bodyAvail.length then
          (some "error: response exceeds max size",
            some (respWithBody r (body.take maxResponseSize)))
        else
          decompressStage c r body

/-- HttpRequest (lines 558-569). -/
structure HttpRequest where
  url : String
  method : String
  postData : Option (List Nat)
  cookie : String
  headers : String
  allowRedirects : Bool
  proxy : String
  timeout : Int
  maxResponseSize : Int
  ignoreCertErrors : Bool
deriving DecidableEq, Repr

/-- The in-place defaulting HttpUrlStruct performs on the caller's struct
through the pointer (lines 863-875); the `if req.Headers == "" { req.Headers
= "" }` branch is a no-op and is omitted as such. -/
def defaultedRequest (req : HttpRequest) : HttpRequest :=
  let req := if req.postData = none then { req with postData := some [] } else req
  let req := if req.timeout ≤ 0 then { req with timeout := 30 } else req
  let req :=
    if req.maxResponseSize < 1 then { req with maxResponseSize := 200 * 1024 * 1024 }
    else req
  req

/-- HttpUrlStruct (lines 857-890). Go passes `*HttpRequest`: `none` models a
nil pointer, and the second component of the result is the state of the
caller's struct after the call (the function writes defaults through the
pointer before delegating to HttpUrl). -/
def HttpUrlStruct (req : Option HttpRequest) (c : Collab) :
    (Option String × Option HttpResponse) × Option HttpRequest :=
  match req with
  | none => ((some "error: req is nil", some newEmptyResponse), none)
  | some r0 =>
    let r := defaultedRequest r0
    (HttpUrl r.url r.method r.postData r.cookie r.headers r.allowRedirects
      r.proxy r.timeout r.maxResponseSize r.ignoreCertErrors c, some r)

/- ## Transport construction -/

/-- A constructed `http.Transport`, tagged with an allocation id: `allocId`
models the identity of the heap object created by `&http.Transport{...}`. -/
structure Transport where
  allocId : Nat
  insecureSkipVerify : Bool
  proxyGo : String
deriving DecidableEq, Repr

/-- The transport-acquisition step of the third-revision HttpUrl (lines
646-656): `transport := &http.Transport{TLSClientConfig: &tls.Config{
InsecureSkipVerify: ignoreCertErrors}}` allocates a fresh transport on every
call — no lookup in any cache precedes it, because no transport cache exists
anywhere in the source. `alloc` is the allocation counter threading the
freshness of each `&`-allocation; it increases on every call. -/
def newTransportStep (proxyGo : String) (ignoreCertErrors : Bool) (alloc : Nat) :
    Transport × Nat :=
  ({ allocId := alloc, insecureSkipVerify := ignoreCertErrors, proxyGo := proxyGo },
    alloc + 1)

/-- The transport configuration of the first-revision HttpUrl (lines 57-78). -/
structure TransportV1 where
  insecureSkipVerify : Bool
  proxyGo : String
deriving DecidableEq, Repr

/-- First-revision HttpUrl's transport construction (lines 66-78): the nine
parameters are those of that variant; the transport is built with
`TLSClientConfig: &tls.Config{InsecureSkipVerify: true}` — the literal `true`,
no parameter reaches it. -/
def HttpUrlV1Transport (urlStr method : String) (postData : List Nat)
    (cookieGo headersTextGo : String) (allowRedirects : Bool) (proxyGo : String)
    (timeout : Int) (MaxResponseSize : Int) : TransportV1 :=
  { insecureSkipVerify := true, proxyGo := proxyGo }

/- ## GetTextTwoMiddle (README source, lines 2205-2291) -/

/-- The repeated seek block of GetTextTwoMiddle: find `pat` in `src`
(`strings.Index`), check `len(src) >= pos+len(pat)`, and return the advance
`pos+len(pat)` together with the remaining text; `none` on the not-found or
failed-check branches. -/
def seekPast (src pat : List Char) : Option (Nat × List Char) :=
  match goIndex src pat with
  | some pos =>
    if src.length ≥ pos + pat.length then
      some (pos + pat.length, src.drop (pos + pat.length))
    else none
  | none => none

/-- GetTextTwoMiddle over character lists (Go byte strings; the claim's inputs
are ASCII). Stages mirror the source: normalize `startPosition = -1` to 0;
jump to `startPosition` when positive; seek past `offset` when non-empty; seek
past `startText` when non-empty; cut before `endText` when non-empty, adding
`len(kept) + len(endText)` to the running position. Every failing stage
returns `(-1, source)` when `fallbackToSource`, else `(-1, "")`. -/
def GetTextTwoMiddle (sourceText startText endText : List Char)
    (startPosition : Int) (offset : List Char) (fallbackToSource : Bool) :
    Int × List Char :=
  let sourceTextTemp := sourceText
  let sp := if startPosition = -1 then 0 else startPosition
  let notFound : Int × List Char :=
    if fallbackToSource then (-1, sourceTextTemp) else (-1, [])
  let stage1 : Option (Int × List Char) :=
    if sp > 0 then
      if (sourceText.length : Int) ≥ sp then some (sp, sourceText.drop sp.toNat)
      else none
    else some (0, sourceText)
  match stage1 with
  | none => notFound
  | some (b1, s1) =>
    let stage2 : Option (Int × List Char) :=
      if offset = [] then some (b1, s1)
      else (seekPast s1 offset).map (fun p => (b1 + (p.1 : Int), p.2))
    match stage2 with
    | none => notFound
    | some (b2, s2) =>
      let stage3 : Option (Int × List Char) :=
        if startText = [] then some (b2, s2)
        else (seekPast s2 startText).map (fun p => (b2 + (p.1 : Int), p.2))
      match stage3 with
      | none => notFound
      | some (b3, s3) =>
        if endText = [] then (b3, s3)
        else
          match goIndex s3 endText with
          | some endPos =>
            let s4 := s3.take endPos
            (b3 + (s4.length : Int) + (endText.length : Int), s4)
          | none => notFound

/- ## Concrete instances used by witnesses and counterexamples -/

/-- A collaborator oracle in which every collaborator succeeds and the network
call fails (the outcome is irrelevant to the state-mutation claims). -/
def trivialCollab : Collab :=
  { parseProxyOk := fun _ => true, http2ConfigOk := true,
    newRequestOk := fun _ _ => true, netOutcome := Except.error "net",
    gzipDec := fun _ => DecompResult.ok [], deflateDec := fun _ => DecompResult.ok [],
    brotliDec := fun _ => BrotliResult.ok [], zstdDec := fun _ => DecompResult.ok [] }

/-- A three-byte plain response, used against a size cap of 1. -/
def respC3 : NetResponse :=
  { statusCode := 200, proto := "HTTP/1.1", status := "200 OK",
    headers := [("Content-Type", ["text/plain"])], bodyAvail := [7, 8, 9],
    readErr := false, readErrBytes := [] }

/-- Oracle delivering `respC3`. -/
def collabC3 : Collab :=
  { trivialCollab with netOutcome := Except.ok respC3 }

/-- A gzip-encoded response whose three body bytes will fail decompression. -/
def respC5 : NetResponse :=
  { statusCode := 200, proto := "HTTP/1.1", status := "200 OK",
    headers := [("Content-Encoding", ["gzip"])], bodyAvail := [31, 139, 8],
    readErr := false, readErrBytes := [] }

/-- Oracle whose gzip reader is constructed but fails while reading. -/
def collabC5Read : Collab :=
  { trivialCollab with
    netOutcome := Except.ok respC5
    gzipDec := fun _ => DecompResult.readFail }

/-- Oracle whose gzip reader construction fails (invalid gzip header). -/
def collabC5New : Collab :=
  { trivialCollab with
    netOutcome := Except.ok respC5
    gzipDec := fun _ => DecompResult.newReaderErr }

/-- A request with `Timeout = 0`, triggering the in-place defaulting. -/
def reqC8 : HttpRequest :=
  { url := "http://example", method := "GET", postData := some [], cookie := "",
    headers := "", allowRedirects := true, proxy := "", timeout := 0,
    maxResponseSize := 5, ignoreCertErrors := false }

/-- A request needing no defaulting. -/
def reqC8ok : HttpRequest :=
  { url := "http://example", method := "GET", postData := some [], cookie := "",
    headers := "", allowRedirects := true, proxy := "", timeout := 15,
    maxResponseSize := 5, ignoreCertErrors := false }

/- ## Helper lemmas -/

theorem getEntry_setEntry (h : Headers) (ck v ck' : String) :
    getEntry (setEntry h ck v) ck' = if ck' = ck then some [v] else getEntry h ck' := by
  induction h with
  | nil =>
    by_cases hc : ck' = ck
    · subst hc; simp [setEntry, getEntry]
    · have hc' : ¬ ck = ck' := fun hx => hc hx.symm
      simp [setEntry, getEntry, hc, hc']
  | cons kv rest ih =>
    by_cases h1 : kv.1 = ck
    · by_cases h2 : ck' = ck
      · subst h2; simp [setEntry, getEntry, h1]
      · have h2' : ¬ ck = ck' := fun hx => h2 hx.symm
        have h3 : ¬ kv.1 = ck' := by rw [h1]; exact h2'
        simp [setEntry, getEntry, h1, h2, h2', h3]
    · by_cases h2 : kv.1 = ck'
      · have h4 : ¬ ck' = ck := fun hx => h1 (h2.trans hx)
        simp [setEntry, getEntry, h1, h2, h4]
      · simp [setEntry, getEntry, h1, h2, ih]

theorem getEntry_foldl (ls : List (List Char)) (h : Headers) (ck : String) :
    getEntry (ls.foldl applyHeaderLine h) ck =
      match lastSetValue ck ls with
      | some v => some [v]
      | none => getEntry h ck := by
  induction ls generalizing h with
  | nil => rfl
  | cons l rest ih =>
    simp only [List.foldl_cons, lastSetValue, ih]
    cases hl : lastSetValue ck rest with
    | some v => simp
    | none =>
      simp only [applyHeaderLine]
      cases hkv : lineKV l with
      | none => simp
      | some kv =>
        simp only [getEntry_setEntry]
        by_cases he : kv.1 = ck
        · subst he; simp
        · have he' : ¬ ck = kv.1 := fun hx => he hx.symm
          simp [he, he']

theorem setEntry_singleton (h : Headers) (ck v : String)
    (ih : ∀ kv ∈ h, kv.2.length = 1) : ∀ kv ∈ setEntry h ck v, kv.2.length = 1 := by
  induction h with
  | nil =>
    intro kv hm
    simp [setEntry] at hm
    subst hm; rfl
  | cons e rest ihr =>
    intro kv hm
    simp only [setEntry] at hm
    by_cases h1 : e.1 = ck
    · rw [if_pos h1] at hm
      rcases List.mem_cons.mp hm with hx | hx
      · subst hx; rfl
      · exact ih kv (List.mem_cons_of_mem _ hx)
    · rw [if_neg h1] at hm
      rcases List.mem_cons.mp hm with hx | hx
      · subst hx; exact ih _ (List.mem_cons_self _ _)
      · exact ihr (fun kv2 hm2 => ih kv2 (List.mem_cons_of_mem _ hm2)) kv hx

theorem foldl_singleton (ls : List (List Char)) (h : Headers)
    (ih : ∀ kv ∈ h, kv.2.length = 1) :
    ∀ kv ∈ ls.foldl applyHeaderLine h, kv.2.length = 1 := by
  induction ls generalizing h with
  | nil => exact ih
  | cons l rest ihr =>
    simp only [List.foldl_cons]
    apply ihr
    simp only [applyHeaderLine]
    cases lineKV l with
    | none => exact ih
    | some kv => exact setEntry_singleton h kv.1 kv.2 ih

/-- The Cookie header of the outgoing request: the last `Cookie:` line of the
header block when one exists (each `Header.Set` replaces the previous value),
the explicit cookie parameter otherwise. -/
theorem cookieHeader_of_buildReqHeaders (cookieGo headersTextGo : String) :
    headerGet (buildReqHeaders cookieGo headersTextGo) "Cookie" =
      match lastSetValue "Cookie" (splitOnChar '\n' headersTextGo.data) with
      | some v => v
      | none => cookieGo := by
  have hck : canonicalMIMEHeaderKey "Cookie" = "Cookie" := by decide
  unfold headerGet buildReqHeaders
  rw [hck, getEntry_foldl]
  cases hl : lastSetValue "Cookie" (splitOnChar '\n' headersTextGo.data) with
  | some v => simp
  | none =>
    by_cases hc : cookieGo = ""
    · simp [hc, getEntry]
    · simp [hc, headerSet, hck, setEntry, getEntry]

theorem decompressStage_isSome (c : Collab) (r : NetResponse) (b : List Nat) :
    (decompressStage c r b).2.isSome = true := by
  unfold decompressStage
  split <;> first | rfl | (split <;> rfl)

/-- Reduction of HttpUrl when every pre-network collaborator succeeds and the
body is read without error: only the size check and the decompression switch
remain. -/
theorem HttpUrl_net_ok (u m : String) (pd : Option (List Nat)) (ck ht : String)
    (ar : Bool) (px : String) (t ms : Int) (ic : Bool) (c : Collab)
    (r : NetResponse)
    (hp : px = "" ∨ c.parseProxyOk px = true)
    (h2 : c.http2ConfigOk = true)
    (hq : c.newRequestOk m u = true)
    (hn : c.netOutcome = Except.ok r)
    (he : r.readErr = false) :
    HttpUrl u m pd ck ht ar px t ms ic c =
      if effMax ms + 1 ≤ r.bodyAvail.length then
        (some "error: response exceeds max size",
          some (respWithBody r ((r.bodyAvail.take (effMax ms + 1)).take (effMax ms))))
      else decompressStage c r (r.bodyAvail.take (effMax ms + 1)) := by
  have hA : ¬ (px ≠ "" ∧ c.parseProxyOk px = false) := by
    rcases hp with hx | hx
    · exact fun hy => hy.1 hx
    · intro hy; rw [hx] at hy; exact absurd hy.2 (by decide)
  have hB : ¬ c.http2ConfigOk = false := by simp [h2]
  have hC : ¬ c.newRequestOk m u = false := by simp [hq]
  simp only [HttpUrl, if_neg hA, if_neg hB, if_neg hC, hn, he]
  simp

/- ## Claim theorems -/

/-- C1 (counterexample): with the same key (proxy `"http://127.0.0.1:8080"`,
ignore-cert `false`), the transport obtained by the second call is NOT the
instance obtained by the first call — every call allocates afresh, so the
claimed cached-reuse is false. -/
theorem C1_counterexample :
    (decide ((newTransportStep "http://127.0.0.1:8080" false
          ((newTransportStep "http://127.0.0.1:8080" false 0).2)).1 =
        (newTransportStep "http://127.0.0.1:8080" false 0).1)) = false := by decide

/-- C1 (amended): no transport cache exists; every call to the request
executor's transport-construction step allocates a fresh transport instance
(allocation id = current counter, counter incremented), so a second call —
with the same (proxy, ignore-cert) key or any other — never returns the first
call's instance. -/
theorem C1_transport_never_reused (p1 : String) (i1 : Bool) (p2 : String)
    (i2 : Bool) (n : Nat) :
    (newTransportStep p1 i1 n).1.allocId = n
    ∧ (newTransportStep p2 i2 (newTransportStep p1 i1 n).2).1.allocId = n + 1
    ∧ (newTransportStep p2 i2 (newTransportStep p1 i1 n).2).1.allocId ≠
        (newTransportStep p1 i1 n).1.allocId := by
  refine ⟨rfl, rfl, ?_⟩
  simp [newTransportStep]

/-- C2 (counterexample): with header block `"Cookie: a=1; b=2"` and explicit
cookie `"b=9"`, the outgoing Cookie header is `"a=1; b=2"`: the pair `b` maps
to `"2"`, not `"9"`, and the claimed merged result `{a:1, b:9}` is absent —
the explicit parameter lost, no per-name union was formed. -/
theorem C2_counterexample :
    headerGet (buildReqHeaders "b=9" "Cookie: a=1; b=2") "Cookie" = "a=1; b=2"
    ∧ specCookiePairs (headerGet (buildReqHeaders "b=9" "Cookie: a=1; b=2") "Cookie")
        = [("a", "1"), ("b", "2")]
    ∧ ((specCookiePairs (headerGet (buildReqHeaders "b=9" "Cookie: a=1; b=2") "Cookie")).contains
        ("b", "9")) = false := by decide

/-- C2 (amended): no cookie merging occurs. The explicit cookie parameter is
attached first via `Header.Set`; each subsequent header line is also attached
via `Header.Set`, which replaces. Hence the outgoing Cookie header equals the
value of the LAST `Cookie:` line of the header block when one exists (the
explicit parameter is discarded wholesale), and equals the explicit cookie
string otherwise. -/
theorem C2_header_cookie_wins (cookieGo headersTextGo : String) :
    headerGet (buildReqHeaders cookieGo headersTextGo) "Cookie" =
      match lastSetValue "Cookie" (splitOnChar '\n' headersTextGo.data) with
      | some v => v
      | none => cookieGo :=
  cookieHeader_of_buildReqHeaders cookieGo headersTextGo

/-- C3: when the network body holds more than the effective `MaxResponseSize`
cap, HttpUrl returns an error together with a response whose body length is
exactly the cap and whose status code and headers are those received. -/
theorem C3_size_limit_truncates (u m : String) (pd : Option (List Nat))
    (ck ht : String) (ar : Bool) (px : String) (t ms : Int) (ic : Bool)
    (c : Collab) (r : NetResponse)
    (hp : px = "" ∨ c.parseProxyOk px = true)
    (h2 : c.http2ConfigOk = true)
    (hq : c.newRequestOk m u = true)
    (hn : c.netOutcome = Except.ok r)
    (he : r.readErr = false)
    (hs : effMax ms < r.bodyAvail.length) :
    ∃ e resp, HttpUrl u m pd ck ht ar px t ms ic c = (some e, some resp)
      ∧ resp.body.length = effMax ms
      ∧ resp.statusCode = r.statusCode
      ∧ resp.headers = r.headers := by
  rw [HttpUrl_net_ok u m pd ck ht ar px t ms ic c r hp h2 hq hn he,
    if_pos (by omega)]
  refine ⟨_, _, rfl, ?_, rfl, rfl⟩
  simp [respWithBody, List.length_take]
  omega

/-- C3 (witness): a three-byte body against a cap of 1 byte. -/
theorem C3_witness :
    ∃ e resp, HttpUrl "http://example" "GET" none "" "" true "" 30 1 false collabC3
        = (some e, some resp)
      ∧ resp.body.length = effMax 1
      ∧ resp.statusCode = respC3.statusCode
      ∧ resp.headers = respC3.headers :=
  C3_size_limit_truncates "http://example" "GET" none "" "" true "" 30 1 false
    collabC3 respC3 (Or.inl rfl) rfl rfl rfl rfl (by decide)

/-- C4: over every outcome — success, every error path, and a nil request
struct — HttpUrl and HttpUrlStruct return a non-nil response object. -/
theorem C4_response_always_non_nil :
    (∀ urlStr method postData cookieGo headersTextGo allowRedirects proxyGo
        timeout MaxResponseSize ignoreCertErrors c,
      (HttpUrl urlStr method postData cookieGo headersTextGo allowRedirects
        proxyGo timeout MaxResponseSize ignoreCertErrors c).2.isSome = true)
    ∧ (∀ req c, ((HttpUrlStruct req c).1).2.isSome = true) := by
  have hmain : ∀ u m pd ck ht ar px t ms ic c,
      (HttpUrl u m pd ck ht ar px t ms ic c).2.isSome = true := by
    intro u m pd ck ht ar px t ms ic c
    unfold HttpUrl
    split
    · rfl
    · split
      · rfl
      · split
        · rfl
        · cases hn : c.netOutcome with
          | error e => rfl
          | ok r =>
            dsimp only
            split
            · rfl
            · split
              · rfl
              · exact decompressStage_isSome c r _
  refine ⟨hmain, ?_⟩
  intro req c
  cases req with
  | none => rfl
  | some r =>
    exact hmain (defaultedRequest r).url (defaultedRequest r).method
      (defaultedRequest r).postData (defaultedRequest r).cookie
      (defaultedRequest r).headers (defaultedRequest r).allowRedirects
      (defaultedRequest r).proxy (defaultedRequest r).timeout
      (defaultedRequest r).maxResponseSize (defaultedRequest r).ignoreCertErrors c

/-- C5 (counterexample): a gzip-encoded response whose reader is constructed
but fails while reading the decompressed stream: HttpUrl returns an error with
an EMPTY body, not the still-compressed bytes `[31, 139, 8]` — refuting "the
body is the still-compressed bytes as received, never an empty body". -/
theorem C5_counterexample :
    HttpUrl "http://example" "GET" none "" "" true "" 30 100 false collabC5Read
      = (some "error: gzip read", some (respWithBody respC5 []))
    ∧ (respWithBody respC5 []).body = []
    ∧ (decide ((respWithBody respC5 []).body = respC5.bodyAvail)) = false := by decide

/-- C5 (amended): on a gzip/deflate/zstd reader-CONSTRUCTION failure the
response carries the still-compressed body; on a failure while READING the
decompressed stream — and on any brotli failure, whose reader construction
cannot fail — the response carries an empty body. An error is returned in
every case. -/
theorem C5_decompression_failure_bodies (u m : String) (pd : Option (List Nat))
    (ck ht : String) (ar : Bool) (px : String) (t ms : Int) (ic : Bool)
    (c : Collab) (r : NetResponse)
    (hp : px = "" ∨ c.parseProxyOk px = true)
    (h2 : c.http2ConfigOk = true)
    (hq : c.newRequestOk m u = true)
    (hn : c.netOutcome = Except.ok r)
    (he : r.readErr = false)
    (hb : r.bodyAvail.length ≤ effMax ms) :
    (headerGet r.headers "Content-Encoding" = "gzip" →
      (c.gzipDec r.bodyAvail = DecompResult.newReaderErr →
        HttpUrl u m pd ck ht ar px t ms ic c =
          (some "error: gzip reader", some (respWithBody r r.bodyAvail)))
      ∧ (c.gzipDec r.bodyAvail = DecompResult.readFail →
        HttpUrl u m pd ck ht ar px t ms ic c =
          (some "error: gzip read", some (respWithBody r []))))
    ∧ (headerGet r.headers "Content-Encoding" = "deflate" →
      (c.deflateDec r.bodyAvail = DecompResult.newReaderErr →
        HttpUrl u m pd ck ht ar px t ms ic c =
          (some "error: deflate reader", some (respWithBody r r.bodyAvail)))
      ∧ (c.deflateDec r.bodyAvail = DecompResult.readFail →
        HttpUrl u m pd ck ht ar px t ms ic c =
          (some "error: deflate read", some (respWithBody r []))))
    ∧ (headerGet r.headers "Content-Encoding" = "zstd" →
      (c.zstdDec r.bodyAvail = DecompResult.newReaderErr →
        HttpUrl u m pd ck ht ar px t ms ic c =
          (some "error: zstd reader", some (respWithBody r r.bodyAvail)))
      ∧ (c.zstdDec r.bodyAvail = DecompResult.readFail →
        HttpUrl u m pd ck ht ar px t ms ic c =
          (some "error: zstd read", some (respWithBody r []))))
    ∧ (headerGet r.headers "Content-Encoding" = "br" →
      c.brotliDec r.bodyAvail = BrotliResult.readFail →
        HttpUrl u m pd ck ht ar px t ms ic c =
          (some "error: brotli read", some (respWithBody r []))) := by
  have hbody : r.bodyAvail.take (effMax ms + 1) = r.bodyAvail :=
    List.take_of_length_le (Nat.le_succ_of_le hb)
  have hmain : HttpUrl u m pd ck ht ar px t ms ic c =
      decompressStage c r r.bodyAvail := by
    rw [HttpUrl_net_ok u m pd ck ht ar px t ms ic c r hp h2 hq hn he,
      if_neg (by omega), hbody]
  refine ⟨fun henc => ⟨fun hd => ?_, fun hd => ?_⟩,
    fun henc => ⟨fun hd => ?_, fun hd => ?_⟩,
    fun henc => ⟨fun hd => ?_, fun hd => ?_⟩,
    fun henc hd => ?_⟩ <;>
  rw [hmain] <;> simp [decompressStage, henc, hd]

/-- C5 (witness): gzip reader-construction failure keeps the compressed body. -/
theorem C5_witness :
    HttpUrl "http://example" "GET" none "" "" true "" 30 100 false collabC5New
      = (some "error: gzip reader", some (respWithBody respC5 [31, 139, 8])) :=
  ((C5_decompression_failure_bodies "http://example" "GET" none "" "" true ""
    30 100 false collabC5New respC5 (Or.inl rfl) rfl rfl rfl rfl
    (by decide)).1 (by decide)).1 rfl

/-- C6 (counterexample): the header text `"X-A: 1\nX-A: 2"` yields a request
header map holding only `["2"]` under `X-A` — the value `"1"` of the first
line is discarded, refuting "retains all values of that key (a multimap)". -/
theorem C6_counterexample :
    buildReqHeaders "" "X-A: 1\nX-A: 2" = [("X-A", ["2"])]
    ∧ ((buildReqHeaders "" "X-A: 1\nX-A: 2").any fun kv => kv.2.contains "1") = false := by
  decide

/-- C6 (amended): `Header.Set` replaces, so for every raw header text in which
a key appears on several lines, the request header map keeps exactly the LAST
line's value for that key — every entry of the map is a single-value entry. -/
theorem C6_only_last_value (cookieGo headersTextGo k v : String)
    (h : lastSetValue (canonicalMIMEHeaderKey k)
        (splitOnChar '\n' headersTextGo.data) = some v) :
    getEntry (buildReqHeaders cookieGo headersTextGo) (canonicalMIMEHeaderKey k)
        = some [v]
    ∧ ∀ kv ∈ buildReqHeaders cookieGo headersTextGo, kv.2.length = 1 := by
  constructor
  · unfold buildReqHeaders
    rw [getEntry_foldl, h]
  · unfold buildReqHeaders
    apply foldl_singleton
    intro kv hm
    by_cases hc : cookieGo = ""
    · simp [hc] at hm
    · simp [hc, headerSet, setEntry] at hm
      simp [hm]

/-- C6 (witness): the duplicate-key header text keeps only the second value. -/
theorem C6_witness :
    getEntry (buildReqHeaders "" "X-A: 1\nX-A: 2") (canonicalMIMEHeaderKey "X-A")
      = some ["2"] :=
  (C6_only_last_value "" "X-A: 1\nX-A: 2" "X-A" "2" (by decide)).1

/-- C7 (counterexample): a cookie value containing the control byte 0x07 is
attached verbatim — the control byte is NOT removed (the claimed sanitized
value `"a=bc"` is not produced). -/
theorem C7_counterexample :
    headerGet (buildReqHeaders "a=b\x07c" "") "Cookie" = "a=b\x07c"
    ∧ ("a=b\x07c".data.contains (Char.ofNat 7)) = true
    ∧ (decide (headerGet (buildReqHeaders "a=b\x07c" "") "Cookie" = "a=bc")) = false := by
  decide

/-- C7 (amended): no control-character sanitization is performed anywhere in
the request construction: when the header block contributes no `Cookie:` line,
the explicit cookie string is attached byte-for-byte as the Cookie header
value, control characters included. -/
theorem C7_cookie_attached_verbatim (cookieGo headersTextGo : String)
    (hc : cookieGo ≠ "")
    (hnl : lastSetValue "Cookie" (splitOnChar '\n' headersTextGo.data) = none) :
    headerGet (buildReqHeaders cookieGo headersTextGo) "Cookie" = cookieGo := by
  rw [cookieHeader_of_buildReqHeaders, hnl]

/-- C7 (witness): the 0x07-carrying cookie emerges unchanged. -/
theorem C7_witness :
    headerGet (buildReqHeaders "a=b\x07c" "") "Cookie" = "a=b\x07c" :=
  C7_cookie_attached_verbatim "a=b\x07c" "" (by decide) (by decide)

/-- C8 (counterexample): a request with `Timeout = 0` is mutated in place by
HttpUrlStruct — after the call the caller's struct holds `Timeout = 30`, so
the claim that no field of the given HttpRequest is modified is false. -/
theorem C8_counterexample :
    (decide ((HttpUrlStruct (some reqC8) trivialCollab).2 = some reqC8)) = false
    ∧ (HttpUrlStruct (some reqC8) trivialCollab).2
        = some { reqC8 with timeout := 30 } := by decide

/-- C8 (amended): HttpUrlStruct writes default values through the caller's
pointer (nil postData → empty, timeout ≤ 0 → 30, maxResponseSize < 1 → 200
MiB); a request that needs no defaulting is left unchanged. -/
theorem C8_no_mutation_when_valid (r : HttpRequest) (c : Collab)
    (h1 : r.postData ≠ none) (h2 : 0 < r.timeout) (h3 : 1 ≤ r.maxResponseSize) :
    (HttpUrlStruct (some r) c).2 = some r := by
  have ht : ¬ r.timeout ≤ 0 := by omega
  have hm : ¬ r.maxResponseSize < 1 := by omega
  simp [HttpUrlStruct, defaultedRequest, h1, ht, hm]

/-- C8 (witness): a fully-specified request is returned unchanged. -/
theorem C8_witness :
    (HttpUrlStruct (some reqC8ok) trivialCollab).2 = some reqC8ok :=
  C8_no_mutation_when_valid reqC8ok trivialCollab (by decide) (by decide) (by decide)

/-- C9: GetTextTwoMiddle over `"AAstartXendBB"` with start `"start"`, end
`"end"`, start position 0, empty offset and no fallback returns the text
`"X"` and position 11, the index just past the last character of `"end"`
(`"end"` is found at index 8 and has length 3). -/
theorem C9_get_text_two_middle :
    GetTextTwoMiddle "AAstartXendBB".data "start".data "end".data 0 [] false
      = (11, "X".data)
    ∧ goIndex "AAstartXendBB".data "end".data = some 8
    ∧ (11 : Int) = 8 + ("end".data.length : Int) := by decide

/-- C10: the first-revision HttpUrl builds its transport with
`InsecureSkipVerify: true` for every combination of its nine parameters —
no parameter can enable certificate verification. -/
theorem C10_v1_always_insecure (urlStr method : String) (postData : List Nat)
    (cookieGo headersTextGo : String) (allowRedirects : Bool) (proxyGo : String)
    (timeout MaxResponseSize : Int) :
    (HttpUrlV1Transport urlStr method postData cookieGo headersTextGo
      allowRedirects proxyGo timeout MaxResponseSize).insecureSkipVerify = true := rfl

end Tools
